import Mathlib

/-!
Verification of the resilient, cache-aware dispatch layer of the
`dolibarr-mcp` server, against its Python sources.

Shallow embedding of:

* `src/dolibarr_mcp/cache/dragonfly.py` — `DragonflyCache` (key derivation
  `_hash_args` / `make_tool_key`, `get`, `set`, `invalidate_pattern`, stats);
* `src/dolibarr_mcp/cache/strategies.py` — `ENTITY_STRATEGIES`,
  `INVALIDATION_MAP`, `get_ttl_for_entity`, `should_cache`,
  `get_invalidation_targets`;
* `src/dolibarr_mcp/server/responses.py` — `ERROR_CODES`, `success_response`,
  `error_response`;
* `src/dolibarr_mcp/server/handlers.py` — `dispatch_tool` /
  `dispatch_tool_cached` (the registry-driven inner execution of a known tool
  is abstracted as an oracle producing the shaped response, with exactly one
  upstream interaction; the registry key set is embedded verbatim);
* `src/dolibarr_mcp/client/exceptions.py` — error taxonomy and constructors;
* `src/dolibarr_mcp/client/base.py` — `DolibarrClient._validate_payload` and
  `DolibarrClient._make_request` (per-attempt HTTP outcomes are an oracle;
  the JSON parse of the raw response text is abstracted to the resulting
  value).

Python `dict`s are modelled as insertion-ordered association lists with
unique keys; exceptions are explicit (`Except` / `Option` results); machine
arithmetic in MD5 is `Nat` with explicit reduction mod `2^32`.
-/

/-- A JSON-like Python value, as passed in tool argument maps and returned in
response payloads.  `other s` stands for a non-JSON-serializable Python object
(e.g. a `date`) whose `str()` rendering is `s`: `json.dumps(..., default=str)`
serializes it as the JSON string `s`. -/
inductive Value where
  | null : Value
  | bool (b : Bool) : Value
  | int (n : Int) : Value
  | str (s : String) : Value
  | arr (l : List Value) : Value
  | obj (fields : List (String × Value)) : Value
  | other (rep : String) : Value

/-- Argument maps / Python dicts: insertion-ordered association lists. -/
abbrev Args := List (String × Value)

mutual

/-- Structural equality on values, modelling Python `==` on the JSON-like
values that occur in payloads (used by the `enum_fields` membership check of
`_validate_payload`). -/
def Value.beq : Value → Value → Bool
  | .null, .null => true
  | .bool a, .bool b => a == b
  | .int a, .int b => a == b
  | .str a, .str b => a == b
  | .arr a, .arr b => Value.beqList a b
  | .obj a, .obj b => Value.beqFields a b
  | .other a, .other b => a == b
  | _, _ => false

/-- Elementwise equality of value lists (Python `list ==`). -/
def Value.beqList : List Value → List Value → Bool
  | [], [] => true
  | a :: as, b :: bs => Value.beq a b && Value.beqList as bs
  | _, _ => false

/-- Entrywise equality of dict item lists. -/
def Value.beqFields : List (String × Value) → List (String × Value) → Bool
  | [], [] => true
  | (k1, v1) :: as, (k2, v2) :: bs => k1 == k2 && Value.beq v1 v2 && Value.beqFields as bs
  | _, _ => false

end

/-- Python `d.get(k)` / `k in d` on an insertion-ordered dict: first entry
with the given key. -/
def dictGet {α : Type} : List (String × α) → String → Option α
  | [], _ => none
  | (k, v) :: rest, key => if k == key then some v else dictGet rest key

/-- Python `d[k] = v` on an insertion-ordered dict: replace in place if the
key is present, otherwise append at the end. -/
def dictSet {α : Type} : List (String × α) → String → α → List (String × α)
  | [], key, v => [(key, v)]
  | (k, w) :: rest, key, v =>
    if k == key then (key, v) :: rest else (k, w) :: dictSet rest key v

/-- Python `d.pop(k)` (the removal part): drop the first entry with the key. -/
def dictRemove {α : Type} : List (String × α) → String → List (String × α)
  | [], _ => []
  | (k, w) :: rest, key => if k == key then rest else (k, w) :: dictRemove rest key

/-- Python truthiness of a value (`if response.get("success")`). -/
def Value.truthy : Value → Bool
  | .null => false
  | .bool b => b
  | .int n => n != 0
  | .str s => s != ""
  | .arr l => !l.isEmpty
  | .obj f => !f.isEmpty
  | .other _ => true

/-- Truthiness of an optional value (`d.get(k)` is `None` when missing). -/
def truthyOpt : Option Value → Bool
  | none => false
  | some v => v.truthy

/-- Field access on a value when it is a dict (`response.get(k)`). -/
def Value.getKey : Value → String → Option Value
  | .obj fs, k => dictGet fs k
  | _, _ => none

/-! ### The deterministic JSON serialization (`json.dumps(args, sort_keys=True, default=str)`) -/

/-- Hexadecimal digit characters, lowercase (Python `%x` / `hexdigest`). -/
def hexDigits : List Char := "0123456789abcdef".data

/-- One lowercase hex digit for `n % 16`. -/
def hexChar (n : Nat) : Char := hexDigits.getD (n % 16) '0'

/-- Four-digit lowercase hex rendering of `n < 0x10000` (JSON `\uXXXX`). -/
def hex4 (n : Nat) : String :=
  String.mk [hexChar (n / 4096), hexChar (n / 256), hexChar (n / 16), hexChar n]

/-- JSON escaping of one character, following `json.dumps` with its default
`ensure_ascii=True`: quote and backslash escaped, control characters and
non-ASCII escaped as `\uXXXX` (surrogate pairs above `0xFFFF`). -/
def escapeChar (c : Char) : String :=
  if c = '"' then "\\\""
  else if c = '\\' then "\\\\"
  else if c = '\n' then "\\n"
  else if c = '\t' then "\\t"
  else if c = '\r' then "\\r"
  else if c.toNat = 8 then "\\b"
  else if c.toNat = 12 then "\\f"
  else if c.toNat < 32 then "\\u" ++ hex4 c.toNat
  else if c.toNat < 127 then String.singleton c
  else if c.toNat < 65536 then "\\u" ++ hex4 c.toNat
  else
    let n := c.toNat - 65536
    "\\u" ++ hex4 (55296 + n / 1024) ++ "\\u" ++ hex4 (56320 + n % 1024)

/-- JSON string literal (`json.dumps` of a `str`). -/
def jsonString (s : String) : String :=
  "\"" ++ String.join (s.data.map escapeChar) ++ "\""

/-- Comparison on serialized dict items used by `sort_keys=True`: order by
key. -/
def keyLe (a b : String × String) : Prop := a.1 ≤ b.1

instance : DecidableRel keyLe := fun a b => inferInstanceAs (Decidable (a.1 ≤ b.1))

instance : IsTotal (String × String) keyLe := ⟨fun a b => le_total a.1 b.1⟩

instance : IsTrans (String × String) keyLe := ⟨fun _ _ _ h1 h2 => le_trans h1 h2⟩

mutual

/-- Serialization of a value, following `json.dumps(..., sort_keys=True,
default=str)` with the default separators `", "` and `": "`: dict items are
rendered and then emitted in order of sorted keys (recursively at every
level). -/
def Value.serialize : Value → String
  | .null => "null"
  | .bool true => "true"
  | .bool false => "false"
  | .int n => toString n
  | .str s => jsonString s
  | .other s => jsonString s
  | .arr l => "[" ++ String.intercalate ", " (Value.serializeList l) ++ "]"
  | .obj fs =>
    "\x7b" ++ String.intercalate ", "
      (((Value.serializeFields fs).insertionSort keyLe).map
        (fun kv => jsonString kv.1 ++ ": " ++ kv.2)) ++ "\x7d"

/-- Serializations of the elements of a JSON array. -/
def Value.serializeList : List Value → List String
  | [] => []
  | v :: rest => Value.serialize v :: Value.serializeList rest

/-- Each dict item with its value serialized (keys are sorted afterwards). -/
def Value.serializeFields : List (String × Value) → List (String × String)
  | [] => []
  | (k, v) :: rest => (k, Value.serialize v) :: Value.serializeFields rest

end

/-! ### MD5 (`hashlib.md5`), on `Nat` with explicit reduction mod `2^32` -/

/-- The 32-bit modulus. -/
def m32 : Nat := 4294967296

/-- 32-bit addition. -/
def add32 (a b : Nat) : Nat := (a + b) % m32

/-- 32-bit bitwise complement. -/
def not32 (a : Nat) : Nat := a ^^^ (m32 - 1)

/-- 32-bit left rotation by `s` bits. -/
def rotl32 (x s : Nat) : Nat := ((x <<< s) % m32) ||| ((x % m32) >>> (32 - s))

/-- The 64 MD5 sine-derived constants `K[i] = floor(abs(sin(i+1)) * 2^32)`. -/
def md5K : List Nat :=
  [0xd76aa478, 0xe8c7b756, 0x242070db, 0xc1bdceee,
   0xf57c0faf, 0x4787c62a, 0xa8304613, 0xfd469501,
   0x698098d8, 0x8b44f7af, 0xffff5bb1, 0x895cd7be,
   0x6b901122, 0xfd987193, 0xa679438e, 0x49b40821,
   0xf61e2562, 0xc040b340, 0x265e5a51, 0xe9b6c7aa,
   0xd62f105d, 0x02441453, 0xd8a1e681, 0xe7d3fbc8,
   0x21e1cde6, 0xc33707d6, 0xf4d50d87, 0x455a14ed,
   0xa9e3e905, 0xfcefa3f8, 0x676f02d9, 0x8d2a4c8a,
   0xfffa3942, 0x8771f681, 0x6d9d6122, 0xfde5380c,
   0xa4beea44, 0x4bdecfa9, 0xf6bb4b60, 0xbebfbc70,
   0x289b7ec6, 0xeaa127fa, 0xd4ef3085, 0x04881d05,
   0xd9d4d039, 0xe6db99e5, 0x1fa27cf8, 0xc4ac5665,
   0xf4292244, 0x432aff97, 0xab9423a7, 0xfc93a039,
   0x655b59c3, 0x8f0ccc92, 0xffeff47d, 0x85845dd1,
   0x6fa87e4f, 0xfe2ce6e0, 0xa3014314, 0x4e0811a1,
   0xf7537e82, 0xbd3af235, 0x2ad7d2bb, 0xeb86d391]

/-- The MD5 per-round left-rotation amounts. -/
def md5S : List Nat :=
  [7, 12, 17, 22, 7, 12, 17, 22, 7, 12, 17, 22, 7, 12, 17, 22,
   5, 9, 14, 20, 5, 9, 14, 20, 5, 9, 14, 20, 5, 9, 14, 20,
   4, 11, 16, 23, 4, 11, 16, 23, 4, 11, 16, 23, 4, 11, 16, 23,
   6, 10, 15, 21, 6, 10, 15, 21, 6, 10, 15, 21, 6, 10, 15, 21]

/-- The MD5 nonlinear function and message index for round `i`. -/
def md5FG (i b c d : Nat) : Nat × Nat :=
  if i < 16 then ((b &&& c) ||| (not32 b &&& d), i)
  else if i < 32 then ((d &&& b) ||| (not32 d &&& c), (5 * i + 1) % 16)
  else if i < 48 then (b ^^^ c ^^^ d, (3 * i + 5) % 16)
  else (c ^^^ (b ||| not32 d), (7 * i) % 16)

/-- One MD5 round: update the `(a, b, c, d)` state with message words `m`. -/
def md5Round (m : List Nat) (st : Nat × Nat × Nat × Nat) (i : Nat) :
    Nat × Nat × Nat × Nat :=
  let (a, b, c, d) := st
  let (f, g) := md5FG i b c d
  let f' := add32 (add32 (add32 f a) (md5K.getD i 0)) (m.getD g 0)
  (d, add32 b (rotl32 f' (md5S.getD i 0)), b, c)

/-- Process one 64-byte block. -/
def md5Block (st : Nat × Nat × Nat × Nat) (block : List Nat) :
    Nat × Nat × Nat × Nat :=
  let m := (List.range 16).map fun j =>
    block.getD (4 * j) 0 + 256 * block.getD (4 * j + 1) 0 +
      65536 * block.getD (4 * j + 2) 0 + 16777216 * block.getD (4 * j + 3) 0
  let (a, b, c, d) := (List.range 64).foldl (md5Round m) st
  let (a0, b0, c0, d0) := st
  (add32 a0 a, add32 b0 b, add32 c0 c, add32 d0 d)

/-- Split a byte list into 64-byte chunks (structural recursion on a fuel
bound so that the definition reduces in the kernel). -/
def chunks64Go : Nat → List Nat → List (List Nat)
  | _, [] => []
  | 0, _ :: _ => []
  | fuel + 1, a :: rest => ((a :: rest).take 64) :: chunks64Go fuel ((a :: rest).drop 64)

/-- Split a byte list into 64-byte chunks. -/
def chunks64 (l : List Nat) : List (List Nat) := chunks64Go l.length l

/-- MD5 padding: `0x80`, zeros to 56 mod 64, then the 64-bit little-endian
bit length. -/
def md5Pad (msg : List Nat) : List Nat :=
  let bitLen := 8 * msg.length
  let padLen := (119 - msg.length % 64) % 64 + 1
  msg ++ (0x80 :: List.replicate (padLen - 1) 0) ++
    (List.range 8).map fun j => bitLen / 256 ^ j % 256

/-- Little-endian bytes of a 32-bit word. -/
def wordLeBytes (x : Nat) : List Nat :=
  [x % 256, x / 256 % 256, x / 65536 % 256, x / 16777216 % 256]

/-- The 16-byte MD5 digest of a byte string. -/
def md5Digest (msg : List Nat) : List Nat :=
  let (a, b, c, d) :=
    (chunks64 (md5Pad msg)).foldl md5Block (0x67452301, 0xefcdab89, 0x98badcfe, 0x10325476)
  wordLeBytes a ++ wordLeBytes b ++ wordLeBytes c ++ wordLeBytes d

/-- Lowercase hex rendering of a byte list (Python `hexdigest()`). -/
def bytesToHex (bs : List Nat) : String :=
  String.mk (bs.flatMap fun b => [hexChar (b / 16), hexChar b])

/-- UTF-8 encoding of one character. -/
def utf8EncodeCharNat (c : Char) : List Nat :=
  let n := c.toNat
  if n < 128 then [n]
  else if n < 2048 then [192 + n / 64, 128 + n % 64]
  else if n < 65536 then [224 + n / 4096, 128 + n / 64 % 64, 128 + n % 64]
  else [240 + n / 262144, 128 + n / 4096 % 64, 128 + n / 64 % 64, 128 + n % 64]

/-- UTF-8 bytes of a string (Python `str.encode()`). -/
def utf8Bytes (s : String) : List Nat := s.data.flatMap utf8EncodeCharNat

/-- The MD5 hexdigest of a string's UTF-8 encoding. -/
def md5Hex (s : String) : String := bytesToHex (md5Digest (utf8Bytes s))

/-- Python string slicing `s[:n]` (by code points). -/
def strTake (s : String) (n : Nat) : String := String.mk (s.data.take n)

/-! ### Key derivation (`DragonflyCache._hash_args` / `make_tool_key`) -/

/-- `DragonflyCache._hash_args`: serialize the argument dict with sorted keys
and take the first 12 characters of the MD5 hexdigest. -/
def hash_args (args : Args) : String :=
  strTake (md5Hex (Value.serialize (.obj args))) 12

/-- `DragonflyCache.make_tool_key`: `tool:{tool_name}:{args_hash}`. -/
def make_tool_key (tool_name : String) (args : Args) : String :=
  "tool:" ++ tool_name ++ ":" ++ hash_args args

/-! ### Cache strategies (`cache/strategies.py`) -/

/-- `CacheStrategy` enum. -/
inductive CacheStrategy where
  | NO_CACHE | SHORT | MEDIUM | LONG | STATIC | EXTENDED
deriving DecidableEq

/-- The enum member values (TTL in seconds). -/
def CacheStrategy.value : CacheStrategy → Nat
  | .NO_CACHE => 0
  | .SHORT => 30
  | .MEDIUM => 300
  | .LONG => 900
  | .STATIC => 3600
  | .EXTENDED => 1800

/-- `ENTITY_STRATEGIES`: entity-specific cache strategies. -/
def ENTITY_STRATEGIES : List (String × CacheStrategy) :=
  [("test_connection", .SHORT),
   ("get_status", .SHORT),
   ("get_products", .EXTENDED),
   ("get_product_by_id", .EXTENDED),
   ("search_products_by_ref", .LONG),
   ("search_products_by_label", .LONG),
   ("resolve_product_ref", .LONG),
   ("get_customers", .MEDIUM),
   ("get_customer_by_id", .MEDIUM),
   ("search_customers", .MEDIUM),
   ("get_users", .MEDIUM),
   ("get_user_by_id", .MEDIUM),
   ("get_contacts", .MEDIUM),
   ("get_contact_by_id", .MEDIUM),
   ("get_projects", .LONG),
   ("get_project_by_id", .LONG),
   ("search_projects", .LONG),
   ("get_invoices", .MEDIUM),
   ("get_customer_invoices", .MEDIUM),
   ("get_invoice_by_id", .MEDIUM),
   ("get_orders", .MEDIUM),
   ("get_customer_orders", .MEDIUM),
   ("get_order_by_id", .MEDIUM),
   ("get_proposals", .MEDIUM),
   ("get_customer_proposals", .MEDIUM),
   ("get_proposal_by_id", .MEDIUM),
   ("search_proposals", .MEDIUM),
   ("create_customer", .NO_CACHE),
   ("update_customer", .NO_CACHE),
   ("delete_customer", .NO_CACHE),
   ("create_product", .NO_CACHE),
   ("update_product", .NO_CACHE),
   ("delete_product", .NO_CACHE),
   ("create_invoice", .NO_CACHE),
   ("update_invoice", .NO_CACHE),
   ("delete_invoice", .NO_CACHE),
   ("add_invoice_line", .NO_CACHE),
   ("update_invoice_line", .NO_CACHE),
   ("delete_invoice_line", .NO_CACHE),
   ("validate_invoice", .NO_CACHE),
   ("create_order", .NO_CACHE),
   ("update_order", .NO_CACHE),
   ("delete_order", .NO_CACHE),
   ("create_contact", .NO_CACHE),
   ("update_contact", .NO_CACHE),
   ("delete_contact", .NO_CACHE),
   ("create_project", .NO_CACHE),
   ("update_project", .NO_CACHE),
   ("delete_project", .NO_CACHE),
   ("create_proposal", .NO_CACHE),
   ("update_proposal", .NO_CACHE),
   ("append_proposal_note", .NO_CACHE),
   ("delete_proposal", .NO_CACHE),
   ("add_proposal_line", .NO_CACHE),
   ("update_proposal_line", .NO_CACHE),
   ("delete_proposal_line", .NO_CACHE),
   ("validate_proposal", .NO_CACHE),
   ("close_proposal", .NO_CACHE),
   ("set_proposal_to_draft", .NO_CACHE),
   ("create_user", .NO_CACHE),
   ("update_user", .NO_CACHE),
   ("delete_user", .NO_CACHE),
   ("dolibarr_raw_api", .NO_CACHE)]

/-- `INVALIDATION_MAP`: tools that invalidate related caches when called. -/
def INVALIDATION_MAP : List (String × List String) :=
  [("create_customer", ["get_customers", "search_customers"]),
   ("update_customer", ["get_customers", "get_customer_by_id", "search_customers"]),
   ("delete_customer", ["get_customers", "get_customer_by_id", "search_customers"]),
   ("create_product", ["get_products", "search_products_by_ref", "search_products_by_label"]),
   ("update_product", ["get_products", "get_product_by_id", "search_products_by_ref",
     "search_products_by_label", "resolve_product_ref"]),
   ("delete_product", ["get_products", "get_product_by_id", "search_products_by_ref",
     "search_products_by_label", "resolve_product_ref"]),
   ("create_invoice", ["get_invoices", "get_customer_invoices"]),
   ("update_invoice", ["get_invoices", "get_customer_invoices", "get_invoice_by_id"]),
   ("delete_invoice", ["get_invoices", "get_customer_invoices", "get_invoice_by_id"]),
   ("add_invoice_line", ["get_invoice_by_id"]),
   ("update_invoice_line", ["get_invoice_by_id"]),
   ("delete_invoice_line", ["get_invoice_by_id"]),
   ("validate_invoice", ["get_invoices", "get_customer_invoices", "get_invoice_by_id"]),
   ("create_proposal", ["get_proposals", "get_customer_proposals", "search_proposals"]),
   ("update_proposal", ["get_proposals", "get_customer_proposals", "get_proposal_by_id",
     "search_proposals"]),
   ("append_proposal_note", ["get_proposal_by_id"]),
   ("delete_proposal", ["get_proposals", "get_customer_proposals", "get_proposal_by_id",
     "search_proposals"]),
   ("add_proposal_line", ["get_proposal_by_id"]),
   ("update_proposal_line", ["get_proposal_by_id"]),
   ("delete_proposal_line", ["get_proposal_by_id"]),
   ("validate_proposal", ["get_proposals", "get_customer_proposals", "get_proposal_by_id"]),
   ("close_proposal", ["get_proposals", "get_customer_proposals", "get_proposal_by_id"]),
   ("set_proposal_to_draft", ["get_proposals", "get_customer_proposals", "get_proposal_by_id"]),
   ("create_project", ["get_projects", "search_projects"]),
   ("update_project", ["get_projects", "get_project_by_id", "search_projects"]),
   ("delete_project", ["get_projects", "get_project_by_id", "search_projects"]),
   ("create_user", ["get_users"]),
   ("update_user", ["get_users", "get_user_by_id"]),
   ("delete_user", ["get_users", "get_user_by_id"]),
   ("create_contact", ["get_contacts"]),
   ("update_contact", ["get_contacts", "get_contact_by_id"]),
   ("delete_contact", ["get_contacts", "get_contact_by_id"]),
   ("create_order", ["get_orders", "get_customer_orders"]),
   ("update_order", ["get_orders", "get_customer_orders", "get_order_by_id"]),
   ("delete_order", ["get_orders", "get_customer_orders", "get_order_by_id"])]

/-- `get_ttl_for_entity`: TTL in seconds, or 0 for no cache. -/
def get_ttl_for_entity (tool_name : String) : Nat :=
  ((dictGet ENTITY_STRATEGIES tool_name).getD .NO_CACHE).value

/-- `should_cache`: whether a tool's results should be cached. -/
def should_cache (tool_name : String) : Bool :=
  ((dictGet ENTITY_STRATEGIES tool_name).getD .NO_CACHE) != .NO_CACHE

/-- `get_invalidation_targets`: tool name patterns to invalidate. -/
def get_invalidation_targets (tool_name : String) : List String :=
  (dictGet INVALIDATION_MAP tool_name).getD []

/-! ### Response wrappers (`server/responses.py`) -/

/-- `ERROR_CODES` of `server/responses.py`: `(status_code, retriable)` per
code. -/
def ERROR_CODES_RESPONSES : List (String × Nat × Bool) :=
  [("VALIDATION_ERROR", 400, false),
   ("INVALID_PARAMETER", 400, false),
   ("MISSING_REQUIRED_FIELD", 400, false),
   ("UNAUTHORIZED", 401, false),
   ("FORBIDDEN", 403, false),
   ("NOT_FOUND", 404, false),
   ("CONFLICT", 409, false),
   ("DUPLICATE_ENTRY", 409, false),
   ("RATE_LIMITED", 429, true),
   ("SERVER_ERROR", 500, true),
   ("SERVICE_UNAVAILABLE", 503, true),
   ("TIMEOUT", 504, true),
   ("CONNECTION_ERROR", 503, true),
   ("UNKNOWN_TOOL", 404, false),
   ("TOOL_EXECUTION_ERROR", 500, true)]

/-- `success_response(data, metadata=None)`. -/
def success_response (data : Value) (metadata : Option Args) : Value :=
  .obj [("success", .bool true), ("data", data), ("metadata", .obj (metadata.getD []))]

/-- `error_response(code, message, status=None, retriable=None, details=None)`:
status and retriable default from `ERROR_CODES` (or `(500, True)` for an
unknown code). -/
def error_response (code message : String) (status : Option Nat)
    (retriable : Option Bool) (details : Option Args) : Value :=
  let dflt := (dictGet ERROR_CODES_RESPONSES code).getD (500, true)
  .obj [("success", .bool false),
        ("error", .obj
          [("code", .str code),
           ("message", .str message),
           ("status", .int (status.getD dflt.1 : Nat)),
           ("retriable", .bool (retriable.getD dflt.2)),
           ("details", .obj (details.getD []))])]

/-! ### Cache store adapter (`cache/dragonfly.py`) -/

/-- Redis glob matching restricted to the `*` wildcard, the only
metacharacter occurring in the dispatcher's patterns (`tool:{name}:*`):
`*` matches any character sequence, every other character matches itself.
Structural recursion on a fuel bound (at least `|pattern| + |key|`) so that
the definition reduces in the kernel. -/
def globMatchGo : Nat → List Char → List Char → Bool
  | _, [], [] => true
  | _, [], _ :: _ => false
  | 0, _ :: _, _ => false
  | fuel + 1, p :: ps, ks =>
    if p = '*' then
      globMatchGo fuel ps ks ||
        (match ks with
         | [] => false
         | _ :: ks2 => globMatchGo fuel (p :: ps) ks2)
    else
      match ks with
      | [] => false
      | k :: ks2 => p == k && globMatchGo fuel ps ks2

/-- Glob matching of a pattern against a key. -/
def globMatch (p k : List Char) : Bool := globMatchGo (p.length + k.length) p k

/-- String version of `globMatch`. -/
def globMatchStr (pat key : String) : Bool := globMatch pat.data key.data

/-- The mutable state of a `DragonflyCache` instance together with the
contents of the external key-value store it is connected to: `_connected`,
the key namespace `self.prefix` (field `pfx`), `default_ttl`, the store's
entries (full key, stored value, TTL), and the `_hits` / `_misses` /
`_errors` counters.  Stored payloads are kept as their parsed JSON values;
a failing `json.loads` on a stored string is injected through `GetFault`. -/
structure Sys where
  connected : Bool
  pfx : String
  defaultTtl : Nat
  store : List (String × Value × Nat)
  hits : Nat
  misses : Nat
  errors : Nat

/-- Behaviour of the underlying client call inside `DragonflyCache.get`:
`ok` — the call returns normally and any found value deserializes;
`corrupt` — a value is found but `json.loads` raises on it;
`raised` — the `GET` call itself raises. -/
inductive GetFault where
  | ok | corrupt | raised
deriving DecidableEq

/-- `DragonflyCache._make_key`: prefixed cache key. -/
def Sys.makeKey (s : Sys) (key : String) : String := s.pfx ++ key

/-- `DragonflyCache.get`: returns the cached value or `None`; increments
`_hits` before deserializing a found value, `_misses` on a miss, `_errors`
when the call or the deserialization raises; returns `None` immediately when
not connected.  Never propagates an exception. -/
def DragonflyCache.get (s : Sys) (key : String) (f : GetFault) : Option Value × Sys :=
  if !s.connected then (none, s)
  else
    match f with
    | .raised => (none, { s with errors := s.errors + 1 })
    | _ =>
      match dictGet s.store (s.makeKey key) with
      | some (v, _) =>
        if f = .corrupt then (none, { s with hits := s.hits + 1, errors := s.errors + 1 })
        else (some v, { s with hits := s.hits + 1 })
      | none => (none, { s with misses := s.misses + 1 })

/-- `DragonflyCache.set`: `setex(full_key, ttl or self.default_ttl, value)`;
returns `False` without error when not connected, increments `_errors` and
returns `False` when the call raises. -/
def DragonflyCache.set (s : Sys) (key : String) (v : Value) (ttl : Option Nat)
    (raiseF : Bool) : Bool × Sys :=
  if !s.connected then (false, s)
  else if raiseF then (false, { s with errors := s.errors + 1 })
  else
    let fk := s.makeKey key
    let t := match ttl with
      | some n => if n = 0 then s.defaultTtl else n
      | none => s.defaultTtl
    (true, { s with store := (fk, v, t) :: s.store.filter (fun e => !(e.1 == fk)) })

/-- `DragonflyCache.invalidate_pattern`: collect the keys matching the
prefixed pattern with `scan_iter`, delete them, and return their count;
`0` when not connected or when the calls raise (incrementing `_errors`). -/
def DragonflyCache.invalidate_pattern (s : Sys) (pat : String) (raiseF : Bool) :
    Nat × Sys :=
  if !s.connected then (0, s)
  else if raiseF then (0, { s with errors := s.errors + 1 })
  else
    let fp := s.makeKey pat
    let keys := (s.store.filter (fun e => globMatchStr fp e.1)).map (·.1)
    (keys.length, { s with store := s.store.filter (fun e => !globMatchStr fp e.1) })

/-! ### Tool dispatch (`server/handlers.py`) -/

/-- The key set of `TOOL_REGISTRY` (`server/tools.py`), embedded verbatim;
the descriptor bodies (schemas, field filters, client method names) are
abstracted into the execution oracle of `dispatch_tool`. -/
def TOOL_REGISTRY_KEYS : List String :=
  ["test_connection", "get_status",
   "search_products_by_ref", "search_products_by_label", "search_customers",
   "resolve_product_ref", "search_projects", "search_proposals",
   "get_users", "get_user_by_id", "create_user", "update_user", "delete_user",
   "get_customers", "get_customer_by_id", "create_customer", "update_customer",
   "delete_customer",
   "get_products", "get_product_by_id", "create_product", "update_product",
   "delete_product",
   "get_invoices", "get_invoice_by_id", "create_invoice", "update_invoice",
   "delete_invoice", "add_invoice_line", "update_invoice_line",
   "delete_invoice_line", "validate_invoice",
   "get_orders", "get_order_by_id", "create_order", "update_order", "delete_order",
   "get_contacts", "get_contact_by_id", "create_contact", "update_contact",
   "delete_contact",
   "get_projects", "get_project_by_id", "create_project", "update_project",
   "delete_project",
   "get_proposals", "get_proposal_by_id", "create_proposal", "update_proposal",
   "delete_proposal", "add_proposal_line", "update_proposal_line",
   "delete_proposal_line", "validate_proposal", "close_proposal",
   "set_proposal_to_draft", "dolibarr_raw_api"]

/-- An execution oracle: the formatted response produced by the known-tool
path of `dispatch_tool` (search handling, client method call, field
filtering, pagination wrapping) for a given tool name and argument map. -/
abbrev ExecOracle := String → Args → Value

/-- `dispatch_tool`: look the name up in `TOOL_REGISTRY`; when absent return
the `UNKNOWN_TOOL` error response; otherwise run the registry-driven
execution (abstracted as the oracle), which performs exactly one upstream
interaction.  The second component counts upstream client invocations. -/
def dispatch_tool (execute : ExecOracle) (name : String) (args : Args) :
    Value × Nat :=
  if TOOL_REGISTRY_KEYS.contains name then (execute name args, 1)
  else
    (error_response "UNKNOWN_TOOL" ("Tool '" ++ name ++ "' not found")
      (some 404) (some false) (some [("tool_name", .str name)]), 0)

/-- The cache-hit metadata update of `dispatch_tool_cached`:
`if isinstance(cached, dict) and "metadata" in cached:
cached["metadata"]["cached"] = True`.  Returns `none` for the `TypeError`
CPython raises when the `metadata` entry is present but not a dict. -/
def markCached : Value → Option Value
  | .obj fs =>
    match dictGet fs "metadata" with
    | some (.obj ms) =>
      some (.obj (dictSet fs "metadata" (.obj (dictSet ms "cached" (.bool true)))))
    | some _ => none
    | none => some (.obj fs)
  | v => some v

/-- Fault injection for the adapter calls made by one pass of
`dispatch_tool_cached`: the `get`, the `set`, and each `invalidate_pattern`
call (by position in the target list). -/
structure Faults where
  getF : GetFault
  setRaise : Bool
  invRaise : Nat → Bool

/-- The fault-free schedule (every adapter call succeeds normally). -/
def noFaults : Faults := ⟨.ok, false, fun _ => false⟩

/-- The invalidation loop of `dispatch_tool_cached`:
`for target in targets: await cache.invalidate_pattern(f"tool:{target}:*")`. -/
def invalidateTargets (s : Sys) (targets : List String) (invRaise : Nat → Bool)
    (i : Nat) : Sys :=
  match targets with
  | [] => s
  | t :: rest =>
    invalidateTargets
      (DragonflyCache.invalidate_pattern s ("tool:" ++ t ++ ":*") (invRaise i)).2
      rest invRaise (i + 1)

/-- `dispatch_tool_cached`: check the cache (only when a cache instance is
given and `should_cache(name)`), on a hit mark and return the cached
response without touching the upstream client; otherwise execute
`dispatch_tool`, store a successful cacheable response with
`get_ttl_for_entity(name)`, and run pattern invalidation for
`get_invalidation_targets(name)` on success.  Returns the response, the
final adapter/store state, and the number of upstream client invocations;
`none` models an uncaught exception (see `markCached`). -/
def dispatch_tool_cached (execute : ExecOracle) (name : String) (args : Args)
    (hasCache : Bool) (s : Sys) (f : Faults) : Option (Value × Sys × Nat) :=
  let key := make_tool_key name args
  let checked := if hasCache && should_cache name
    then DragonflyCache.get s key f.getF else (none, s)
  match checked.1 with
  | some cached => (markCached cached).map fun r => (r, checked.2, 0)
  | none =>
    let executed := dispatch_tool execute name args
    let response := executed.1
    let s2 := if hasCache && truthyOpt (response.getKey "success") && should_cache name
      then (DragonflyCache.set checked.2 key response (some (get_ttl_for_entity name))
        f.setRaise).2
      else checked.2
    let s3 := if hasCache && truthyOpt (response.getKey "success")
      then invalidateTargets s2 (get_invalidation_targets name) f.invRaise 0
      else s2
    some (response, s3, executed.2)

/-! ### Error taxonomy (`client/exceptions.py`) -/

/-- `ERROR_CODES` of `client/exceptions.py`: `(status_code, retriable)` per
code. -/
def ERROR_CODES_EXCEPTIONS : List (String × Nat × Bool) :=
  [("VALIDATION_ERROR", 400, false),
   ("INVALID_PARAMETER", 400, false),
   ("MISSING_REQUIRED_FIELD", 400, false),
   ("UNAUTHORIZED", 401, false),
   ("FORBIDDEN", 403, false),
   ("NOT_FOUND", 404, false),
   ("CONFLICT", 409, false),
   ("DUPLICATE_ENTRY", 409, false),
   ("RATE_LIMITED", 429, true),
   ("SERVER_ERROR", 500, true),
   ("SERVICE_UNAVAILABLE", 503, true),
   ("TIMEOUT", 504, true),
   ("CONNECTION_ERROR", 503, true)]

/-- `DolibarrAPIError._infer_code_from_status`. -/
def infer_code_from_status (status : Nat) : String :=
  (dictGet
    [("400", "VALIDATION_ERROR"), ("401", "UNAUTHORIZED"), ("403", "FORBIDDEN"),
     ("404", "NOT_FOUND"), ("409", "CONFLICT"), ("429", "RATE_LIMITED"),
     ("500", "SERVER_ERROR"), ("502", "SERVER_ERROR"), ("503", "SERVICE_UNAVAILABLE"),
     ("504", "TIMEOUT")] (toString status)).getD "SERVER_ERROR"

/-- A raised `DolibarrAPIError` (or subclass), with the attributes the claims
are about: `code`, `message`, `status_code`, `retriable`, and — for
validation errors — the `missing_fields` / `invalid_fields` lists (kept as
JSON-like values; both are the empty list on non-validation errors).  The
always-generated opaque `correlation_id` is not represented. -/
structure DolibarrError where
  code : String
  message : String
  status : Nat
  retriable : Bool
  missingFields : Value
  invalidFields : Value

/-- `DolibarrAPIError.__init__`: `status_code or 500`; the code defaults to
`_infer_code_from_status`; `retriable` defaults per `ERROR_CODES` (or
`(500, True)` for an unknown code). -/
def mkAPIError (message : String) (status : Option Nat) (code : Option String)
    (retriable : Option Bool) : DolibarrError :=
  let st := status.getD 500
  let c := code.getD (infer_code_from_status st)
  { code := c, message := message, status := st,
    retriable := retriable.getD ((dictGet ERROR_CODES_EXCEPTIONS c).getD (500, true)).2,
    missingFields := .arr [], invalidFields := .arr [] }

/-- `DolibarrValidationError.__init__`: code `VALIDATION_ERROR`, retriable
`False`, `missing_fields = missing_fields or []` (and likewise for
`invalid_fields`). -/
def mkValidationError (message : String) (missingV invalidV : Value)
    (status : Nat) : DolibarrError :=
  { code := "VALIDATION_ERROR", message := message, status := status,
    retriable := false,
    missingFields := if missingV.truthy then missingV else .arr [],
    invalidFields := if invalidV.truthy then invalidV else .arr [] }

/-- `DolibarrConnectionError.__init__`: status 503, code `CONNECTION_ERROR`,
retriable `True`. -/
def mkConnectionError (message : String) : DolibarrError :=
  { code := "CONNECTION_ERROR", message := message, status := 503,
    retriable := true, missingFields := .arr [], invalidFields := .arr [] }

/-- `DolibarrTimeoutError.__init__`: status 504, code `TIMEOUT`, retriable
`True`. -/
def mkTimeoutError (message : String) : DolibarrError :=
  { code := "TIMEOUT", message := message, status := 504,
    retriable := true, missingFields := .arr [], invalidFields := .arr [] }

mutual

/-- Python `repr()` of a JSON-like value, as interpolated into f-strings by
the validation messages (string escaping inside repr is simplified to plain
single quotes; the interpolated values are plain identifiers and numbers). -/
def pyRepr : Value → String
  | .null => "None"
  | .bool true => "True"
  | .bool false => "False"
  | .int n => toString n
  | .str s => "'" ++ s ++ "'"
  | .other s => s
  | .arr l => "[" ++ String.intercalate ", " (pyReprList l) ++ "]"
  | .obj fs => "\x7b" ++ String.intercalate ", " (pyReprFields fs) ++ "\x7d"

/-- Element renderings of a list repr. -/
def pyReprList : List Value → List String
  | [] => []
  | v :: rest => pyRepr v :: pyReprList rest

/-- Item renderings of a dict repr. -/
def pyReprFields : List (String × Value) → List String
  | [] => []
  | (k, v) :: rest => ("'" ++ k ++ "': " ++ pyRepr v) :: pyReprFields rest

end

/-- Python `str()` of a JSON-like value. -/
def pyStr : Value → String
  | .str s => s
  | .other s => s
  | v => pyRepr v

/-- Substring test (Python `needle in hay`). -/
def strContains (hay needle : String) : Bool :=
  (List.range (hay.data.length + 1)).any fun i => needle.data.isPrefixOf (hay.data.drop i)

/-- `build_validation_error` (`client/exceptions.py`): compose the detailed
message from the missing/invalid field names and build the validation
error. -/
def build_validation_error (endpoint : String) (missing : List String)
    (invalid : List Value) (message : String) : DolibarrError :=
  let _ := endpoint
  let parts :=
    (if !missing.isEmpty then ["missing: " ++ String.intercalate ", " missing] else []) ++
    (if !invalid.isEmpty then
      ["invalid: " ++ String.intercalate ", "
        (invalid.map fun v => match v.getKey "field" with
          | some (.str s) => s
          | _ => "")]
     else [])
  let msg := if !parts.isEmpty
    then message ++ " (" ++ String.intercalate "; " parts ++ ")"
    else message
  mkValidationError msg (.arr (missing.map .str)) (.arr invalid) 400

/-! ### Client-side validation (`DolibarrClient._validate_payload`) -/

/-- Python `payload[field] in (None, "")`. -/
def isNoneOrEmpty (v : Value) : Bool := Value.beq v .null || Value.beq v (.str "")

/-- The keyword arguments of `_validate_payload`. -/
structure ValidateSpec where
  required_fields : List String
  aliases : List (String × List String)
  numeric_positive : List String
  enum_fields : List (String × List Value)
  required_any_of : List (List String)
  non_empty_fields : List String

/-- `DolibarrClient._apply_aliases`: promote the first non-empty alias to
the canonical name (`payload[target] = payload.pop(alias)`) when the target
is absent. -/
def applyAliases (payload : Args) (aliases : List (String × List String)) : Args :=
  aliases.foldl (fun p ta =>
    if (dictGet p ta.1).isSome then p
    else
      match ta.2.find? (fun a => match dictGet p a with
        | some v => !isNoneOrEmpty v
        | none => false) with
      | some a =>
        match dictGet p a with
        | some v => dictRemove p a ++ [(ta.1, v)]
        | none => p
      | none => p) payload

/-- The missing-field collection of `_validate_payload`: absent or empty
required fields, then all-empty `required_any_of` groups (joined with
`" or "`), then empty `non_empty_fields` not already collected. -/
def validateMissing (p : Args) (spec : ValidateSpec) : List String :=
  let missing1 := spec.required_fields.filter fun fl =>
    match dictGet p fl with
    | none => true
    | some v => isNoneOrEmpty v
  let missing2 := missing1 ++ (spec.required_any_of.filter fun g =>
      g.all fun fl =>
        match dictGet p fl with
        | none => true
        | some v => isNoneOrEmpty v).map (String.intercalate " or ")
  spec.non_empty_fields.foldl (fun acc fl =>
    match dictGet p fl with
    | some v => if isNoneOrEmpty v && !acc.contains fl then acc ++ [fl] else acc
    | none => acc) missing2

/-- The invalid-field collection of `_validate_payload`: negative
`numeric_positive` fields, then `enum_fields` values outside the allowed
set. -/
def validateInvalid (p : Args) (spec : ValidateSpec) : List Value :=
  (spec.numeric_positive.filterMap fun fl =>
    match dictGet p fl with
    | some (.int n) =>
      if n < 0 then
        some (Value.obj [("field", .str fl), ("message", .str "must be a positive number")])
      else none
    | _ => none) ++
  spec.enum_fields.filterMap fun fv =>
    match dictGet p fv.1 with
    | some v =>
      if !fv.2.any (Value.beq v) then
        some (Value.obj [("field", .str fv.1),
          ("message", .str ("must be one of " ++ pyRepr (.arr fv.2)))])
      else none
    | none => none

/-- The `ref` auto-generation step of `_validate_payload`: when `ref` is
missing and auto-generation is enabled, set `payload["ref"]` to the
generated reference and drop `ref` from the missing list. -/
def validateAuto (allowRefAutogen : Bool) (genRef : String) (p : Args)
    (missing : List String) : Args × List String :=
  if missing.contains "ref" && allowRefAutogen then
    (dictSet p "ref" (.str genRef), missing.filter (fun f => f != "ref"))
  else (p, missing)

/-- `DolibarrClient._validate_payload`: apply aliases, collect missing
required fields (including `required_any_of` groups and `non_empty_fields`),
collect invalid fields (`numeric_positive`, `enum_fields`), optionally
auto-generate `ref`, and raise `build_validation_error` when anything is
missing or invalid; otherwise return the payload. -/
def DolibarrClient.validatePayload (allowRefAutogen : Bool) (genRef : String)
    (endpoint : String) (payload : Args) (spec : ValidateSpec) :
    Except DolibarrError Args :=
  let p := applyAliases payload spec.aliases
  let pm := validateAuto allowRefAutogen genRef p (validateMissing p spec)
  if !pm.2.isEmpty || !(validateInvalid p spec).isEmpty then
    .error (build_validation_error endpoint pm.2 (validateInvalid p spec) "Validation failed")
  else .ok pm.1

/-! ### HTTP request handling (`DolibarrClient._make_request`) -/

/-- Exception categories distinguished by the `except` clauses of
`_make_request`. -/
inductive ExcKind where
  | respErr (status : Nat)
  | connErr
  | clientErr
  | timeoutErr
  | otherErr (msg : String)
deriving DecidableEq

/-- Whether the exception is an `aiohttp.ClientError`
(`ClientResponseError` and `ClientConnectorError` are subclasses). -/
def ExcKind.isClientError : ExcKind → Bool
  | .respErr _ => true
  | .connErr => true
  | .clientErr => true
  | _ => false

/-- A rendering of `str(e)` for each exception category. -/
def ExcKind.message : ExcKind → String
  | .respErr s => "ClientResponseError: " ++ toString s
  | .connErr => "Cannot connect to host"
  | .clientErr => "ClientError"
  | .timeoutErr => "TimeoutError"
  | .otherErr m => m

/-- What one attempt of the underlying `session.request` yields: either an
HTTP response (with its status and the value obtained from the
parse-JSON-or-wrap-raw-text step) or a raised exception. -/
inductive Outcome where
  | http (status : Nat) (body : Value)
  | exc (e : ExcKind)

/-- What the one-shot alternative `setup/modules` probe for the `status`
endpoint yields. -/
inductive AltResult where
  | resp (status : Nat)
  | raised (e : ExcKind)

/-- The observable result of `_make_request`: the returned value or the
raised error, the number of attempts of the main URL, and the backoff
sleeps performed between attempts (in seconds). -/
structure MRResult where
  result : Except DolibarrError Value
  attempts : Nat
  sleeps : List ℚ

/-- The hard-coded success payload returned when the alternative status
probe answers 200. -/
def statusFallback : Value :=
  .obj [("success", .int 1), ("dolibarr_version", .str "API Available"),
        ("api_version", .str "1.0")]

/-- The retry condition of `_make_request`:
`isinstance(e, aiohttp.ClientResponseError) and e.status in {502, 503, 504}`. -/
def isRetriableClientExc : ExcKind → Bool
  | .respErr s => s == 502 || s == 503 || s == 504
  | _ => false

/-- The 400-response extraction of `_make_request`: take
`missing_fields` / `invalid_fields` from the body when present (truthy or
`[]`), then the two `"ref" in ...` heuristics on `error` / `message`. -/
def extract400 (body : Value) : Value × Value :=
  match body with
  | .obj fs =>
    let missing0 : Value := match dictGet fs "missing_fields" with
      | some v => if v.truthy then v else .arr []
      | none => .arr []
    let invalid : Value := match dictGet fs "invalid_fields" with
      | some v => if v.truthy then v else .arr []
      | none => .arr []
    let missing1 := if !missing0.truthy then
        match dictGet fs "error" with
        | some (.str es) =>
          if strContains es.toLower "ref" then Value.arr [.str "ref"] else missing0
        | _ => missing0
      else missing0
    let missing2 := if !missing1.truthy then
        match dictGet fs "message" with
        | some mv =>
          if strContains (pyStr mv).toLower "ref" then Value.arr [.str "ref"] else missing1
        | none => missing1
      else missing1
    (missing2, invalid)
  | _ => (.arr [], .arr [])

/-- The post-loop exception handling of `_make_request`:
`ClientConnectorError` becomes `DolibarrConnectionError`,
`asyncio.TimeoutError` becomes `DolibarrTimeoutError`, any other recorded
exception becomes a 500 `DolibarrAPIError` with a correlation id, and the
(unreachable) no-exception case the final fallback error. -/
def finalizeRequest (endpoint : String) (last : Option ExcKind) (attempts : Nat)
    (sleeps : List ℚ) : MRResult :=
  match last with
  | some .connErr =>
    ⟨.error (mkConnectionError ("Cannot connect to Dolibarr API: " ++ ExcKind.message .connErr)),
      attempts, sleeps⟩
  | some .timeoutErr => ⟨.error (mkTimeoutError "Request timed out"), attempts, sleeps⟩
  | some e => ⟨.error (mkAPIError e.message (some 500) none none), attempts, sleeps⟩
  | none =>
    ⟨.error (mkAPIError ("HTTP client error: " ++ endpoint) none none none), attempts, sleeps⟩

/-- The retry loop of `_make_request` (`for attempt in range(max_retries + 1)`),
with the remaining iteration count as fuel and `i` the zero-based attempt
index.  On an HTTP response: 2xx/3xx returns the body; 400 raises the
validation error; 5xx raises a `DolibarrAPIError` (re-raised undisturbed by
`except DolibarrAPIError`); other 4xx raises a `DolibarrAPIError` with the
body-derived message.  On an `aiohttp.ClientError`: record it, run the
one-shot alternative probe for the `status` endpoint, then retry (with
backoff `retry_backoff_seconds * 2^attempt`) only when the exception is a
`ClientResponseError` with status 502/503/504 and attempts remain; on any
other exception: record it and leave the loop. -/
def makeRequestLoop (maxRetries : Nat) (backoffBase : ℚ) (endpoint : String)
    (urlIsApiStatus : Bool) (outcomes : Nat → Outcome) (alt : Nat → AltResult) :
    Nat → Nat → Option ExcKind → List ℚ → MRResult
  | 0, i, last, sleeps => finalizeRequest endpoint last i sleeps
  | fuel + 1, i, _last, sleeps =>
    match outcomes i with
    | .http st body =>
      if st < 400 then ⟨.ok body, i + 1, sleeps⟩
      else if st == 400 then
        let mi := extract400 body
        ⟨.error (mkValidationError "Validation failed" mi.1 mi.2 400), i + 1, sleeps⟩
      else if 500 ≤ st then
        match body with
        | .obj fs =>
          let msg := match dictGet fs "message" with
            | some v => pyStr v
            | none => "An unexpected error occurred while processing " ++ endpoint
          ⟨.error (mkAPIError msg (some st) none none), i + 1, sleeps⟩
        | _ =>
          finalizeRequest endpoint
            (some (.otherErr "AttributeError: object has no attribute get")) (i + 1) sleeps
      else
        let msg := match body with
          | .obj fs =>
            match dictGet fs "message" with
            | some v => pyStr v
            | none =>
              match dictGet fs "error" with
              | some (.str es) => es
              | _ => "HTTP " ++ toString st
          | _ => "HTTP " ++ toString st
        ⟨.error (mkAPIError msg (some st) none none), i + 1, sleeps⟩
    | .exc e =>
      if e.isClientError then
        match (if endpoint == "status" && !urlIsApiStatus then some (alt i) else none) with
        | some (.resp 200) => ⟨.ok statusFallback, i + 1, sleeps⟩
        | probe =>
          let last2 : Option ExcKind := match probe with
            | some (.raised ae) => some ae
            | _ => some e
          if i < maxRetries && isRetriableClientExc e then
            makeRequestLoop maxRetries backoffBase endpoint urlIsApiStatus outcomes alt
              fuel (i + 1) last2 (sleeps ++ [backoffBase * 2 ^ i])
          else finalizeRequest endpoint last2 (i + 1) sleeps
      else finalizeRequest endpoint (some e) (i + 1) sleeps

/-- `DolibarrClient._make_request`, driven by the per-attempt outcome oracle
and the alternative-probe oracle. -/
def DolibarrClient.makeRequest (maxRetries : Nat) (backoffBase : ℚ)
    (endpoint : String) (urlIsApiStatus : Bool) (outcomes : Nat → Outcome)
    (alt : Nat → AltResult) : MRResult :=
  makeRequestLoop maxRetries backoffBase endpoint urlIsApiStatus outcomes alt
    (maxRetries + 1) 0 none []

/-! ### Concrete scenario constants used by witnesses and counterexamples -/

/-- An execution oracle returning a fixed shaped success response. -/
def cwExec : ExecOracle := fun _ _ => success_response (.str "fresh") none

/-- A connected cache state over an empty store. -/
def sEmpty : Sys := ⟨true, "dolibarr:", 300, [], 0, 0, 0⟩

/-- A disconnected cache state. -/
def sDown : Sys := ⟨false, "dolibarr:", 300, [], 0, 0, 0⟩

/-- A connected cache state whose store holds one entry under key
`dolibarr:k`. -/
def sOneKey : Sys := ⟨true, "dolibarr:", 300, [("dolibarr:k", .str "v", 60)], 0, 0, 0⟩

/-- A connected cache state seeded with a stale entry under a fingerprint of
the catalog-declared invalidation target `get_customer_invoices` (a name
absent from the tool registry). -/
def sSeedStale : Sys :=
  ⟨true, "dolibarr:", 300,
   [("dolibarr:" ++ make_tool_key "get_customer_invoices" [],
     success_response (.str "stale") none, 300)], 0, 0, 0⟩

/-- A fault schedule where every adapter call raises. -/
def allRaise : Faults := ⟨.raised, true, fun _ => true⟩

/-! ### Helper lemmas: dictionaries -/

theorem dictGet_mem {α : Type} {l : List (String × α)} {k : String} {v : α}
    (h : dictGet l k = some v) : (k, v) ∈ l := by
  induction l with
  | nil => simp [dictGet] at h
  | cons a rest ih =>
    obtain ⟨k1, v1⟩ := a
    by_cases hk : k1 == k
    · simp only [dictGet, hk, if_pos] at h
      obtain rfl := Option.some.inj h
      have : k1 = k := by simpa using hk
      subst this
      exact List.mem_cons_self _ _
    · simp only [dictGet, hk, if_neg, Bool.false_eq_true, not_false_eq_true] at h
      exact List.mem_cons_of_mem _ (ih h)

theorem dictGet_cons_self {α : Type} (k : String) (v : α) (rest : List (String × α)) :
    dictGet ((k, v) :: rest) k = some v := by
  simp [dictGet]

theorem dictGet_dictSet_self {α : Type} (l : List (String × α)) (k : String) (v : α) :
    dictGet (dictSet l k v) k = some v := by
  induction l with
  | nil => simp [dictSet, dictGet]
  | cons a rest ih =>
    obtain ⟨k1, v1⟩ := a
    by_cases hk : k1 == k
    · simp [dictSet, hk, dictGet]
    · simp [dictSet, hk, dictGet, ih]

/-! ### Helper lemmas: cache adapter state -/

theorem get_disconnected {s : Sys} {k : String} {f : GetFault}
    (hc : s.connected = false) : DragonflyCache.get s k f = (none, s) := by
  simp [DragonflyCache.get, hc]

theorem set_disconnected {s : Sys} {k : String} {v : Value} {ttl : Option Nat}
    {r : Bool} (hc : s.connected = false) : DragonflyCache.set s k v ttl r = (false, s) := by
  simp [DragonflyCache.set, hc]

theorem invalidate_pattern_disconnected {s : Sys} {p : String} {r : Bool}
    (hc : s.connected = false) : DragonflyCache.invalidate_pattern s p r = (0, s) := by
  simp [DragonflyCache.invalidate_pattern, hc]

theorem invalidateTargets_disconnected {s : Sys} {ts : List String}
    {ir : Nat → Bool} {i : Nat} (hc : s.connected = false) :
    invalidateTargets s ts ir i = s := by
  induction ts generalizing s i with
  | nil => rfl
  | cons t rest ih =>
    rw [invalidateTargets, invalidate_pattern_disconnected hc]
    exact ih hc

theorem get_raised {s : Sys} {k : String} (hc : s.connected = true) :
    DragonflyCache.get s k .raised = (none, { s with errors := s.errors + 1 }) := by
  simp [DragonflyCache.get, hc]

theorem get_miss {s : Sys} {k : String} {f : GetFault} (hc : s.connected = true)
    (hf : f ≠ .raised) (hm : dictGet s.store (s.makeKey k) = none) :
    DragonflyCache.get s k f = (none, { s with misses := s.misses + 1 }) := by
  cases f with
  | raised => exact absurd rfl hf
  | ok => simp [DragonflyCache.get, hc, hm]
  | corrupt => simp [DragonflyCache.get, hc, hm]

theorem get_hit {s : Sys} {k : String} {v : Value} {t : Nat} (hc : s.connected = true)
    (hm : dictGet s.store (s.makeKey k) = some (v, t)) :
    DragonflyCache.get s k .ok = (some v, { s with hits := s.hits + 1 }) := by
  simp [DragonflyCache.get, hc, hm]

theorem get_state {s : Sys} (k : String) (f : GetFault) :
    ((DragonflyCache.get s k f).2).connected = s.connected ∧
    ((DragonflyCache.get s k f).2).pfx = s.pfx ∧
    ((DragonflyCache.get s k f).2).defaultTtl = s.defaultTtl ∧
    ((DragonflyCache.get s k f).2).store = s.store := by
  unfold DragonflyCache.get
  split
  · simp
  · split
    · simp
    · split
      · split <;> simp
      · simp

theorem set_state {s : Sys} (k : String) (v : Value) (ttl : Option Nat) (r : Bool) :
    ((DragonflyCache.set s k v ttl r).2).connected = s.connected ∧
    ((DragonflyCache.set s k v ttl r).2).pfx = s.pfx ∧
    ((DragonflyCache.set s k v ttl r).2).defaultTtl = s.defaultTtl := by
  unfold DragonflyCache.set
  split
  · simp
  · split <;> simp

theorem invalidate_pattern_state {s : Sys} (p : String) (r : Bool) :
    ((DragonflyCache.invalidate_pattern s p r).2).connected = s.connected ∧
    ((DragonflyCache.invalidate_pattern s p r).2).pfx = s.pfx ∧
    ((DragonflyCache.invalidate_pattern s p r).2).defaultTtl = s.defaultTtl := by
  unfold DragonflyCache.invalidate_pattern
  split
  · simp
  · split <;> simp

theorem invalidate_pattern_entries {s : Sys} {p : String} {r : Bool}
    {e : String × Value × Nat}
    (h : e ∈ ((DragonflyCache.invalidate_pattern s p r).2).store) : e ∈ s.store := by
  unfold DragonflyCache.invalidate_pattern at h
  split at h
  · exact h
  · split at h
    · exact h
    · simp only at h
      exact (List.mem_filter.mp h).1

theorem invalidateTargets_state {ts : List String} {s : Sys} {ir : Nat → Bool} {i : Nat} :
    ((invalidateTargets s ts ir i)).connected = s.connected ∧
    ((invalidateTargets s ts ir i)).pfx = s.pfx := by
  induction ts generalizing s i with
  | nil => exact ⟨rfl, rfl⟩
  | cons t rest ih =>
    rw [invalidateTargets]
    refine ⟨?_, ?_⟩
    · rw [ih.1, (invalidate_pattern_state _ _).1]
    · rw [ih.2, (invalidate_pattern_state _ _).2.1]

theorem invalidateTargets_entries {ts : List String} {s : Sys} {ir : Nat → Bool} {i : Nat}
    {e : String × Value × Nat}
    (h : e ∈ (invalidateTargets s ts ir i).store) : e ∈ s.store := by
  induction ts generalizing s i with
  | nil => exact h
  | cons t rest ih => exact invalidate_pattern_entries (ih h)

theorem invalidate_pattern_clears {s : Sys} {p : String} {e : String × Value × Nat}
    (hc : s.connected = true)
    (h : e ∈ ((DragonflyCache.invalidate_pattern s p false).2).store) :
    globMatchStr (s.pfx ++ p) e.1 = false := by
  unfold DragonflyCache.invalidate_pattern at h
  rw [hc] at h
  simp only [Bool.not_true, Bool.false_eq_true, if_false, if_neg] at h
  have := (List.mem_filter.mp h).2
  simpa [Sys.makeKey] using this

theorem invalidateTargets_clears {ts : List String} {s : Sys} {ir : Nat → Bool} {i : Nat}
    {t : String} {e : String × Value × Nat}
    (hc : s.connected = true) (hir : ∀ j, ir j = false) (ht : t ∈ ts)
    (h : e ∈ (invalidateTargets s ts ir i).store) :
    globMatchStr (s.pfx ++ ("tool:" ++ t ++ ":*")) e.1 = false := by
  induction ts generalizing s i with
  | nil => cases ht
  | cons u rest ih =>
    rw [invalidateTargets] at h
    rcases List.mem_cons.mp ht with rfl | hmem
    · rw [hir i] at h
      exact invalidate_pattern_clears hc (invalidateTargets_entries h)
    · have hc2 : ((DragonflyCache.invalidate_pattern s ("tool:" ++ u ++ ":*") (ir i)).2).connected = true := by
        rw [(invalidate_pattern_state _ _).1, hc]
      have hpfx : ((DragonflyCache.invalidate_pattern s ("tool:" ++ u ++ ":*") (ir i)).2).pfx = s.pfx :=
        (invalidate_pattern_state _ _).2.1
      have := ih hc2 hmem h
      rwa [hpfx] at this

/-! ### Helper lemmas: the strategy and invalidation tables -/

theorem invalidation_keys_not_cached :
    INVALIDATION_MAP.all (fun p => !(should_cache p.1)) = true := by decide

theorem invalidation_targets_cached :
    INVALIDATION_MAP.all (fun p => p.2.all (fun t => should_cache t)) = true := by decide

theorem invalidation_targets_star_free :
    INVALIDATION_MAP.all (fun p => p.2.all (fun t => !t.data.contains '*')) = true := by decide

theorem targets_nonempty_key {n : String} {t : String}
    (h : t ∈ get_invalidation_targets n) :
    ∃ l, dictGet INVALIDATION_MAP n = some l ∧ t ∈ l := by
  unfold get_invalidation_targets at h
  cases hm : dictGet INVALIDATION_MAP n with
  | none => rw [hm] at h; cases h
  | some l => rw [hm] at h; exact ⟨l, rfl, h⟩

theorem mem_targets_not_cached {n t : String}
    (h : t ∈ get_invalidation_targets n) : should_cache n = false := by
  obtain ⟨l, hl, _⟩ := targets_nonempty_key h
  have := List.all_eq_true.mp invalidation_keys_not_cached _ (dictGet_mem hl)
  simpa using this

theorem mem_targets_cacheable {n t : String}
    (h : t ∈ get_invalidation_targets n) : should_cache t = true := by
  obtain ⟨l, hl, htl⟩ := targets_nonempty_key h
  have := List.all_eq_true.mp invalidation_targets_cached _ (dictGet_mem hl)
  exact List.all_eq_true.mp this _ htl

theorem mem_targets_star_free {n t : String}
    (h : t ∈ get_invalidation_targets n) : t.data.contains '*' = false := by
  obtain ⟨l, hl, htl⟩ := targets_nonempty_key h
  have h1 := List.all_eq_true.mp invalidation_targets_star_free _ (dictGet_mem hl)
  have := List.all_eq_true.mp h1 _ htl
  simpa using this

theorem should_cache_targets_empty {n : String} (h : should_cache n = true) :
    get_invalidation_targets n = [] := by
  cases ht : get_invalidation_targets n with
  | nil => rfl
  | cons t rest =>
    have : t ∈ get_invalidation_targets n := by rw [ht]; exact List.mem_cons_self _ _
    rw [mem_targets_not_cached this] at h
    cases h

/-! ### Helper lemmas: sorted serialization is permutation-invariant -/

theorem sorted_nodupkeys_perm_eq :
    ∀ {u v : List (String × String)}, u.Perm v → u.Sorted keyLe → v.Sorted keyLe →
      (u.map Prod.fst).Nodup → u = v := by
  intro u
  induction u with
  | nil => intro v hp _ _ _; exact hp.nil_eq
  | cons a u ih =>
    intro v hp hsu hsv hnd
    cases v with
    | nil => exact absurd hp.symm.nil_eq (by simp)
    | cons b v =>
      have hab : a = b := by
        have hav : a ∈ b :: v := hp.mem_iff.mp (List.mem_cons_self _ _)
        have hbu : b ∈ a :: u := hp.mem_iff.mpr (List.mem_cons_self _ _)
        rcases List.mem_cons.mp hav with h1 | h1
        · exact h1
        rcases List.mem_cons.mp hbu with h2 | h2
        · exact h2.symm
        have hle1 : keyLe a b := List.rel_of_sorted_cons hsu b h2
        have hle2 : keyLe b a := List.rel_of_sorted_cons hsv a h1
        have hkeys : a.1 = b.1 := le_antisymm hle1 hle2
        have hnd2 : (a.1 :: u.map Prod.fst).Nodup := by
          rw [List.map_cons] at hnd; exact hnd
        have hnotin : a.1 ∉ u.map Prod.fst := (List.nodup_cons.mp hnd2).1
        exact absurd (hkeys ▸ List.mem_map_of_mem Prod.fst h2) hnotin
      subst hab
      have hnd2 : (a.1 :: u.map Prod.fst).Nodup := by
        rw [List.map_cons] at hnd; exact hnd
      have htail := ih (hp.cons_inv) hsu.of_cons hsv.of_cons (List.nodup_cons.mp hnd2).2
      rw [htail]

theorem serializeFields_eq_map (l : List (String × Value)) :
    Value.serializeFields l = l.map (fun kv => (kv.1, Value.serialize kv.2)) := by
  induction l with
  | nil => rfl
  | cons a rest ih => rw [Value.serializeFields, ih]; rfl

theorem serialize_obj_perm {l1 l2 : Args} (hp : l1.Perm l2)
    (hnd : (l1.map Prod.fst).Nodup) :
    Value.serialize (.obj l1) = Value.serialize (.obj l2) := by
  have hpf : (Value.serializeFields l1).Perm (Value.serializeFields l2) := by
    rw [serializeFields_eq_map, serializeFields_eq_map]
    exact hp.map _
  have hs1 := List.sorted_insertionSort keyLe (Value.serializeFields l1)
  have hs2 := List.sorted_insertionSort keyLe (Value.serializeFields l2)
  have hp12 :
      ((Value.serializeFields l1).insertionSort keyLe).Perm
        ((Value.serializeFields l2).insertionSort keyLe) :=
    (List.perm_insertionSort _ _).trans (hpf.trans (List.perm_insertionSort _ _).symm)
  have hnd1 : (((Value.serializeFields l1).insertionSort keyLe).map Prod.fst).Nodup := by
    have hbase : ((Value.serializeFields l1).map Prod.fst).Nodup := by
      rw [serializeFields_eq_map, List.map_map]
      simpa [Function.comp] using hnd
    exact (((List.perm_insertionSort keyLe _).map Prod.fst).nodup_iff).mpr hbase
  have heq := sorted_nodupkeys_perm_eq hp12 hs1 hs2 hnd1
  rw [Value.serialize, Value.serialize, heq]

/-! ### Helper lemmas: shape of derived keys -/

theorem hexPairs_length (bs : List Nat) :
    (bs.flatMap fun b => [hexChar (b / 16), hexChar b]).length = 2 * bs.length := by
  induction bs with
  | nil => rfl
  | cons b rest ih => simp [ih]; omega

theorem md5Digest_length (m : List Nat) : (md5Digest m).length = 16 := by
  unfold md5Digest
  obtain ⟨a, b, c, d⟩ :=
    (chunks64 (md5Pad m)).foldl md5Block (0x67452301, 0xefcdab89, 0x98badcfe, 0x10325476)
  simp [wordLeBytes]

theorem strTake_length (s : String) (n : Nat) : (strTake s n).length = min n s.length := by
  have h : (strTake s n).length = (s.data.take n).length := rfl
  rw [h, List.length_take]
  rfl

theorem md5Hex_length (s : String) : (md5Hex s).length = 32 := by
  have h : (md5Hex s).length =
      ((md5Digest (utf8Bytes s)).flatMap fun b => [hexChar (b / 16), hexChar b]).length := rfl
  rw [h, hexPairs_length, md5Digest_length]

theorem hash_args_length (args : Args) : (hash_args args).length = 12 := by
  rw [hash_args, strTake_length, md5Hex_length]
  rfl

theorem hexChar_mem (n : Nat) : hexChar n ∈ hexDigits := by
  unfold hexChar
  have hlen : hexDigits.length = 16 := by decide
  have h : n % 16 < hexDigits.length := by
    rw [hlen]
    exact Nat.mod_lt n (by decide)
  rw [List.getD_eq_getElem _ _ h]
  exact List.getElem_mem h

theorem hash_args_chars (args : Args) :
    ∀ c ∈ (hash_args args).data, c ∈ hexDigits := by
  intro c hc
  have hc1 : c ∈ (md5Hex (Value.serialize (.obj args))).data.take 12 := hc
  have hc2 := List.take_subset 12 _ hc1
  have he : (md5Hex (Value.serialize (.obj args))).data =
      (md5Digest (utf8Bytes (Value.serialize (.obj args)))).flatMap
        fun b => [hexChar (b / 16), hexChar b] := rfl
  rw [he] at hc2
  obtain ⟨b, _, hb⟩ := List.mem_flatMap.mp hc2
  rcases List.mem_cons.mp hb with h | h
  · exact h ▸ hexChar_mem _
  · rcases List.mem_cons.mp h with h2 | h2
    · exact h2 ▸ hexChar_mem _
    · cases h2

/-! ### Helper lemmas: a star-terminated glob pattern tests for a prefix -/

theorem globMatchGo_star_true (ks : List Char) (fuel : Nat)
    (hf : ks.length + 1 ≤ fuel) : globMatchGo fuel ['*'] ks = true := by
  induction ks generalizing fuel with
  | nil =>
    cases fuel with
    | zero => omega
    | succ f => simp [globMatchGo]
  | cons k ks ih =>
    cases fuel with
    | zero => omega
    | succ f =>
      have hrec := ih f (by simpa using Nat.lt_succ_iff.mp (by simpa using hf))
      simp [globMatchGo, hrec]

theorem globMatchGo_star (ps : List Char) (ks : List Char) (fuel : Nat)
    (hstar : ps.contains '*' = false) (hf : ps.length + ks.length + 1 ≤ fuel) :
    globMatchGo fuel (ps ++ ['*']) ks = decide (ps <+: ks) := by
  induction ps generalizing ks fuel with
  | nil =>
    have hks : ([] : List Char) <+: ks := ⟨ks, rfl⟩
    simpa [hks] using globMatchGo_star_true ks fuel (by omega)
  | cons c ps ih =>
    have hc : ¬(c = '*') := by
      intro h
      rw [h] at hstar
      simp [List.contains_cons] at hstar
    have hstar2 : ps.contains '*' = false := by
      simp only [List.contains_cons, Bool.or_eq_false_iff] at hstar
      exact hstar.2
    cases fuel with
    | zero => omega
    | succ f =>
      cases ks with
      | nil =>
        rw [List.cons_append, globMatchGo, if_neg hc]
        simp [List.prefix_nil]
      | cons k ks2 =>
        rw [List.cons_append, globMatchGo, if_neg hc]
        have hrec := ih ks2 f hstar2 (by simp at hf ⊢; omega)
        simp only [hrec]
        by_cases hck : c = k
        · subst hck
          simp [List.cons_prefix_cons]
        · simp [List.cons_prefix_cons, hck]

theorem globMatchStr_star (pfxpat key : String)
    (h : pfxpat.data.contains '*' = false) :
    globMatchStr (pfxpat ++ "*") key = decide (pfxpat.data <+: key.data) := by
  unfold globMatchStr globMatch
  have hd : (pfxpat ++ "*").data = pfxpat.data ++ ['*'] := by
    simp [String.data_append]
  rw [hd]
  apply globMatchGo_star _ _ _ h
  simp only [List.length_append, List.length_cons, List.length_nil]
  omega

/-! ### Claim theorems -/

/-- C10: for every operation name and string-keyed argument map — including
maps holding non-JSON-serializable values (the `Value.other` string
fallback) — key derivation is total (a total Lean function over the whole
`Args` space) and always yields `tool:{name}:{h}` with `h` a 12-character
hexadecimal digest. -/
theorem make_tool_key_total_shape (name : String) (args : Args) :
    make_tool_key name args = "tool:" ++ name ++ ":" ++ hash_args args ∧
    (hash_args args).length = 12 ∧
    ∀ c ∈ (hash_args args).data, c ∈ hexDigits :=
  ⟨rfl, hash_args_length args, hash_args_chars args⟩

/-- C6: for every operation name and two argument maps with the same
key-value pairs in any insertion order (a permutation with no duplicate
keys), `make_tool_key` returns the same key string; being a pure function of
its arguments, repeated calls trivially agree. -/
theorem make_tool_key_perm_invariant (name : String) (l1 l2 : Args)
    (hp : l1.Perm l2) (hnd : (l1.map Prod.fst).Nodup) :
    make_tool_key name l1 = make_tool_key name l2 := by
  unfold make_tool_key hash_args
  rw [serialize_obj_perm hp hnd]

/-- Witness for C6 at two concrete two-entry argument maps. -/
theorem make_tool_key_perm_invariant_witness :
    (([("page", Value.int 2), ("limit", Value.int 10)] : Args)).Perm
      [("limit", Value.int 10), ("page", Value.int 2)] ∧
    (([("page", Value.int 2), ("limit", Value.int 10)] : Args).map Prod.fst).Nodup ∧
    make_tool_key "get_customers" [("page", Value.int 2), ("limit", Value.int 10)] =
      make_tool_key "get_customers" [("limit", Value.int 10), ("page", Value.int 2)] :=
  ⟨List.Perm.swap _ _ _, by decide,
   make_tool_key_perm_invariant "get_customers" _ _ (List.Perm.swap _ _ _) (by decide)⟩

/-- C8: for every operation name, a non-cacheable operation (strategy
`NO_CACHE` or unknown) has TTL 0, a cacheable operation (TTL above 0) has no
invalidation targets, and — equivalently — every key of the invalidation map
has the `NO_CACHE` strategy. -/
theorem catalog_ttl_invalidation_invariant (name : String) :
    (should_cache name = false → get_ttl_for_entity name = 0) ∧
    (0 < get_ttl_for_entity name → get_invalidation_targets name = []) ∧
    ((dictGet INVALIDATION_MAP name).isSome → should_cache name = false) := by
  refine ⟨?_, ?_, ?_⟩
  · intro h
    unfold should_cache at h
    unfold get_ttl_for_entity
    cases hm : dictGet ENTITY_STRATEGIES name with
    | none => rfl
    | some st => cases st <;> simp_all [CacheStrategy.value]
  · intro h
    apply should_cache_targets_empty
    unfold get_ttl_for_entity at h
    unfold should_cache
    cases hm : dictGet ENTITY_STRATEGIES name with
    | none => simp [hm, CacheStrategy.value] at h
    | some st => cases st <;> simp_all [CacheStrategy.value]
  · intro h
    rw [Option.isSome_iff_exists] at h
    obtain ⟨l, hl⟩ := h
    have := List.all_eq_true.mp invalidation_keys_not_cached _ (dictGet_mem hl)
    simpa using this

/-- Witness for C8 at a mutating and a cacheable operation name. -/
theorem catalog_ttl_invalidation_invariant_witness :
    should_cache "create_customer" = false ∧ get_ttl_for_entity "create_customer" = 0 ∧
    0 < get_ttl_for_entity "get_customers" ∧
    get_invalidation_targets "get_customers" = [] :=
  ⟨by decide, (catalog_ttl_invalidation_invariant "create_customer").1 (by decide),
   by decide, (catalog_ttl_invalidation_invariant "get_customers").2.1 (by decide)⟩

/-- C2 (amended): `DragonflyCache.get` increments exactly the hit counter on
a deserialized value, exactly the miss counter when the store returns no
value, exactly the error counter when the store call raises — but on a
deserialization failure the hit counter is incremented in addition to the
error counter, because `self._hits += 1` runs before `json.loads`; all other
state is unchanged, and the counter values never influence the branch taken
or the returned value. -/
theorem cache_get_counter_effects (s : Sys) (key : String) (f : GetFault) :
    (s.connected = false → DragonflyCache.get s key f = (none, s)) ∧
    (s.connected = true → f = .raised →
      DragonflyCache.get s key f = (none, { s with errors := s.errors + 1 })) ∧
    (s.connected = true → f ≠ .raised →
      dictGet s.store (s.makeKey key) = none →
      DragonflyCache.get s key f = (none, { s with misses := s.misses + 1 })) ∧
    (s.connected = true → ∀ v t, dictGet s.store (s.makeKey key) = some (v, t) →
      DragonflyCache.get s key .ok = (some v, { s with hits := s.hits + 1 })) ∧
    (s.connected = true → ∀ v t, dictGet s.store (s.makeKey key) = some (v, t) →
      DragonflyCache.get s key .corrupt =
        (none, { s with hits := s.hits + 1, errors := s.errors + 1 })) ∧
    (∀ h2 m2 e2,
      (DragonflyCache.get { s with hits := h2, misses := m2, errors := e2 } key f).1 =
        (DragonflyCache.get s key f).1) := by
  refine ⟨fun hc => get_disconnected hc,
          fun hc hf => hf ▸ get_raised hc,
          fun hc hf hm => get_miss hc hf hm,
          fun hc v t hm => get_hit hc hm,
          fun hc v t hm => ?_,
          fun h2 m2 e2 => ?_⟩
  · simp [DragonflyCache.get, hc, hm]
  · unfold DragonflyCache.get Sys.makeKey
    cases hcon : s.connected <;> cases f <;>
      cases hdg : dictGet s.store (s.pfx ++ key) <;>
      simp [hdg]

/-- C2 counterexample: on a deserialization failure for a present key, the
hit counter is incremented alongside the error counter, so the other
counters are not unchanged as the claim states. -/
theorem cache_get_corrupt_increments_hits :
    DragonflyCache.get sOneKey "k" .corrupt =
      (none, { sOneKey with hits := 1, errors := 1 }) ∧
    (DragonflyCache.get sOneKey "k" .corrupt).2.hits ≠ sOneKey.hits := by
  constructor
  · rfl
  · decide

/-- Witness for C2 at a concrete connected one-entry store. -/
theorem cache_get_counter_effects_witness :
    sOneKey.connected = true ∧
    DragonflyCache.get sOneKey "k" .ok = (some (.str "v"), { sOneKey with hits := 1 }) :=
  ⟨rfl, (cache_get_counter_effects sOneKey "k" .ok).2.2.2.1 rfl (.str "v") 60 rfl⟩

/-- C1 (code evaluation at the failing input): with `max_retries = 3`, a
call whose every attempt yields an HTTP 502 response is attempted exactly
once, sleeps never, and raises the 502 `DolibarrAPIError` immediately
(retriable `true`), because the 5xx response handler raises before the
502/503/504 retry branch can run; only a raised `ClientResponseError`
carrying 502 is retried `max_retries + 1` times. -/
theorem retry_bound_http502_single_attempt :
    DolibarrClient.makeRequest 3 1 "invoices" false
        (fun _ => .http 502 (.obj [])) (fun _ => .resp 500) =
      ⟨.error { code := "SERVER_ERROR",
                message := "An unexpected error occurred while processing invoices",
                status := 502, retriable := true,
                missingFields := .arr [], invalidFields := .arr [] }, 1, []⟩ ∧
    (DolibarrClient.makeRequest 3 1 "invoices" false
        (fun _ => .exc (.respErr 502)) (fun _ => .resp 500)).attempts = 4 := by
  constructor
  · rfl
  · rfl

/-- C5: a request whose first attempt yields an HTTP 400 response is
attempted exactly once with no backoff sleep and raises the validation
error with the structured `missing_fields` / `invalid_fields` extracted from
the body, retriable `false`; and every client-side `_validate_payload`
failure is the structured validation error built from the computed missing
and invalid field lists (retriable `false`, status 400), raised only when
one of the two lists is non-empty. -/
theorem validation_failure_single_attempt
    (maxRetries : Nat) (base : ℚ) (endpoint : String) (uas : Bool)
    (outcomes : Nat → Outcome) (alt : Nat → AltResult) (body : Value)
    (h : outcomes 0 = .http 400 body) :
    (DolibarrClient.makeRequest maxRetries base endpoint uas outcomes alt =
      ⟨.error (mkValidationError "Validation failed"
        (extract400 body).1 (extract400 body).2 400), 1, []⟩) ∧
    (mkValidationError "Validation failed"
      (extract400 body).1 (extract400 body).2 400).retriable = false ∧
    (mkValidationError "Validation failed"
      (extract400 body).1 (extract400 body).2 400).code = "VALIDATION_ERROR" ∧
    (∀ allowAuto genRef ep payload spec e,
      DolibarrClient.validatePayload allowAuto genRef ep payload spec = .error e →
      e.retriable = false ∧ e.code = "VALIDATION_ERROR" ∧ e.status = 400 ∧
      ∃ m inv, e = build_validation_error ep m inv "Validation failed" ∧
        (m ≠ [] ∨ inv ≠ [])) := by
  refine ⟨?_, rfl, rfl, ?_⟩
  · unfold DolibarrClient.makeRequest
    simp only [makeRequestLoop, h]
    norm_num
  · intro allowAuto genRef ep payload spec e he
    unfold DolibarrClient.validatePayload at he
    simp only [] at he
    split at he
    · rename_i hcond
      obtain rfl := (Except.error.inj he).symm
      refine ⟨rfl, rfl, rfl, _, _, rfl, ?_⟩
      rcases Bool.or_eq_true_iff.mp hcond with h1 | h1
      · left
        intro hnil
        rw [hnil] at h1
        simp at h1
      · right
        intro hnil
        rw [hnil] at h1
        simp at h1
    · cases he

/-- Witness for C5 at a concrete 400 response carrying `missing_fields`. -/
theorem validation_failure_single_attempt_witness :
    ((fun _ => Outcome.http 400 (.obj [("missing_fields", .arr [.str "ref"])])) 0 =
      Outcome.http 400 (.obj [("missing_fields", .arr [.str "ref"])])) ∧
    DolibarrClient.makeRequest 2 1 "products" false
        (fun _ => .http 400 (.obj [("missing_fields", .arr [.str "ref"])]))
        (fun _ => .resp 500) =
      ⟨.error (mkValidationError "Validation failed"
        (extract400 (.obj [("missing_fields", .arr [.str "ref"])])).1
        (extract400 (.obj [("missing_fields", .arr [.str "ref"])])).2 400), 1, []⟩ :=
  ⟨rfl, (validation_failure_single_attempt 2 1 "products" false _ _ _ rfl).1⟩

theorem should_cache_ttl_ne_zero {n : String} (h : should_cache n = true) :
    get_ttl_for_entity n ≠ 0 := by
  unfold should_cache at h
  unfold get_ttl_for_entity
  cases hm : dictGet ENTITY_STRATEGIES n with
  | none => simp_all
  | some st => cases st <;> simp_all [CacheStrategy.value]

/-- C7: with the cache adapter disconnected, the cached dispatcher returns
exactly the uncached dispatch result — the same fresh response and the same
upstream invocation count, with the adapter state untouched — and with a
connected adapter whose underlying store calls all raise, the adapter
absorbs the exceptions and the dispatcher still returns the fresh uncached
result (no exception escapes: the result is `some`). -/
theorem cache_disconnected_graceful (execute : ExecOracle) (name : String)
    (args : Args) (s : Sys) (f : Faults) :
    (s.connected = false →
      dispatch_tool_cached execute name args true s f =
        some ((dispatch_tool execute name args).1, s,
          (dispatch_tool execute name args).2)) ∧
    (s.connected = true → f.getF = .raised →
      (dispatch_tool_cached execute name args true s f).map (fun r => (r.1, r.2.2)) =
        some ((dispatch_tool execute name args).1, (dispatch_tool execute name args).2)) := by
  constructor
  · intro hc
    cases hsc : should_cache name <;>
      simp [dispatch_tool_cached, hsc, get_disconnected hc, set_disconnected hc,
        invalidateTargets_disconnected hc]
  · intro hc hgf
    cases hsc : should_cache name <;>
      simp [dispatch_tool_cached, hsc, hgf, get_raised hc]

/-- Witness for C7: a disconnected state returns the fresh result with the
state untouched, and a connected state with an all-raising fault schedule
still returns the fresh result. -/
theorem cache_disconnected_graceful_witness :
    sDown.connected = false ∧
    dispatch_tool_cached cwExec "get_customers" [] true sDown allRaise =
      some ((dispatch_tool cwExec "get_customers" []).1, sDown,
        (dispatch_tool cwExec "get_customers" []).2) ∧
    (dispatch_tool_cached cwExec "get_customers" [] true sEmpty allRaise).map
        (fun r => (r.1, r.2.2)) =
      some ((dispatch_tool cwExec "get_customers" []).1,
        (dispatch_tool cwExec "get_customers" []).2) :=
  ⟨rfl, (cache_disconnected_graceful cwExec "get_customers" [] sDown allRaise).1 rfl,
   (cache_disconnected_graceful cwExec "get_customers" [] sEmpty allRaise).2 rfl rfl⟩

/-- C9 (amended): dispatching an operation name absent from the tool
registry returns the `UNKNOWN_TOOL` error response (status 404, retriable
false) with zero upstream invocations and no cache write; when the name is
also not catalog-cacheable the adapter state is fully untouched, but for the
three catalog-cacheable names absent from the registry a cache read happens
first. -/
theorem unknown_tool_not_found (execute : ExecOracle) (name : String) (args : Args)
    (s : Sys) (f : Faults)
    (hn : TOOL_REGISTRY_KEYS.contains name = false)
    (hget : (DragonflyCache.get s (make_tool_key name args) f.getF).1 = none) :
    (dispatch_tool_cached execute name args true s f).map
        (fun r => (r.1, r.2.1.store, r.2.2)) =
      some (error_response "UNKNOWN_TOOL" ("Tool '" ++ name ++ "' not found")
        (some 404) (some false) (some [("tool_name", .str name)]), s.store, 0) ∧
    (should_cache name = false →
      dispatch_tool_cached execute name args true s f =
        some (error_response "UNKNOWN_TOOL" ("Tool '" ++ name ++ "' not found")
          (some 404) (some false) (some [("tool_name", .str name)]), s, 0)) := by
  have hn2 : name ∉ TOOL_REGISTRY_KEYS := by simpa using hn
  constructor
  · cases hsc : should_cache name
    · simp [dispatch_tool_cached, hsc, dispatch_tool, hn2, error_response,
        Value.getKey, dictGet, truthyOpt, Value.truthy, invalidateTargets]
    · have hstore : ((DragonflyCache.get s (make_tool_key name args) f.getF).2).store = s.store :=
        (get_state (make_tool_key name args) f.getF).2.2.2
      simp only [dispatch_tool_cached, hsc, Bool.and_self, if_pos, Bool.true_and, if_true]
      rw [hget]
      simp [dispatch_tool, hn2, error_response, Value.getKey, dictGet, truthyOpt,
        Value.truthy, invalidateTargets, hstore]
  · intro hsc
    simp [dispatch_tool_cached, hsc, dispatch_tool, hn2, error_response,
      Value.getKey, dictGet, truthyOpt, Value.truthy, invalidateTargets]

/-- C9 counterexample: `get_customer_invoices` is absent from the tool
registry, yet its dispatch over a connected empty-store cache increments the
miss counter — the cache is read, against the claim's "without reading or
writing the cache". -/
theorem unknown_tool_reads_cache_cex :
    TOOL_REGISTRY_KEYS.contains "get_customer_invoices" = false ∧
    (dispatch_tool_cached cwExec "get_customer_invoices" [] true sEmpty noFaults).map
        (fun r => (r.2.1.misses, r.2.2)) = some (1, 0) ∧
    sEmpty.misses = 0 := by
  refine ⟨by decide, by decide, rfl⟩

/-- Witness for C9 at a concrete unregistered, non-cacheable name. -/
theorem unknown_tool_not_found_witness :
    TOOL_REGISTRY_KEYS.contains "frobnicate" = false ∧
    dispatch_tool_cached cwExec "frobnicate" [] true sEmpty noFaults =
      some (error_response "UNKNOWN_TOOL" "Tool 'frobnicate' not found"
        (some 404) (some false) (some [("tool_name", .str "frobnicate")]), sEmpty, 0) :=
  ⟨by decide,
   (unknown_tool_not_found cwExec "frobnicate" [] sEmpty noFaults (by decide) rfl).2 (by decide)⟩

theorem set_store_connected {s : Sys} {k : String} {v : Value} {n : Nat}
    (hc : s.connected = true) (hn : ¬n = 0) :
    DragonflyCache.set s k v (some n) false =
      (true, { s with store :=
        (s.makeKey k, v, n) :: s.store.filter (fun e => !(e.1 == s.makeKey k)) }) := by
  simp [DragonflyCache.set, hc, hn]

/-- C3: over a connected cache, after a first cacheable dispatch misses,
executes upstream once and stores its shaped success response, an immediate
second dispatch with the same name and arguments finds the stored response,
returns it with the metadata field `cached` set to `true`, and performs zero
upstream invocations. -/
theorem cached_dispatch_second_call_hits (execute : ExecOracle) (name : String)
    (args : Args) (s : Sys) (d : Value) (md : Option Args)
    (hc : s.connected = true) (hsc : should_cache name = true)
    (hreg : TOOL_REGISTRY_KEYS.contains name = true)
    (hmiss : dictGet s.store (s.makeKey (make_tool_key name args)) = none)
    (hex : execute name args = success_response d md) :
    ∃ s1 s2,
      dispatch_tool_cached execute name args true s noFaults =
        some (success_response d md, s1, 1) ∧
      dictGet s1.store (s1.makeKey (make_tool_key name args)) =
        some (success_response d md, get_ttl_for_entity name) ∧
      dispatch_tool_cached execute name args true s1 noFaults =
        some (.obj [("success", .bool true), ("data", d),
          ("metadata", .obj (dictSet (md.getD []) "cached" (.bool true)))], s2, 0) ∧
      dictGet (dictSet (md.getD []) "cached" (.bool true)) "cached" = some (.bool true) := by
  have htl := should_cache_ttl_ne_zero hsc
  have htg := should_cache_targets_empty hsc
  have hmain : dispatch_tool_cached execute name args true s noFaults =
      some (success_response d md,
        ({ s with
           misses := s.misses + 1,
           store := (s.makeKey (make_tool_key name args), success_response d md,
               get_ttl_for_entity name) ::
             s.store.filter (fun e => !(e.1 == s.makeKey (make_tool_key name args))) } : Sys),
        1) := by
    have hgm : DragonflyCache.get s (make_tool_key name args) noFaults.getF =
        (none, { s with misses := s.misses + 1 }) := get_miss hc (by decide) hmiss
    simp only [dispatch_tool_cached, hsc, Bool.and_self, if_true, hgm]
    simp only [dispatch_tool, hreg, if_true, hex]
    simp [success_response, Value.getKey, dictGet, truthyOpt, Value.truthy,
      DragonflyCache.set, hc, htl, htg, invalidateTargets, Sys.makeKey, noFaults]
  refine ⟨{ s with
            misses := s.misses + 1,
            store := (s.makeKey (make_tool_key name args), success_response d md,
                get_ttl_for_entity name) ::
              s.store.filter (fun e => !(e.1 == s.makeKey (make_tool_key name args))) },
          { s with
            hits := s.hits + 1,
            misses := s.misses + 1,
            store := (s.makeKey (make_tool_key name args), success_response d md,
                get_ttl_for_entity name) ::
              s.store.filter (fun e => !(e.1 == s.makeKey (make_tool_key name args))) },
          hmain, ?_, ?_, dictGet_dictSet_self _ _ _⟩
  · exact dictGet_cons_self _ _ _
  · have hgh : DragonflyCache.get
        ({ s with
           misses := s.misses + 1,
           store := (s.makeKey (make_tool_key name args), success_response d md,
               get_ttl_for_entity name) ::
             s.store.filter (fun e => !(e.1 == s.makeKey (make_tool_key name args))) } : Sys)
        (make_tool_key name args) noFaults.getF =
        (some (success_response d md),
         { s with
           hits := s.hits + 1,
           misses := s.misses + 1,
           store := (s.makeKey (make_tool_key name args), success_response d md,
               get_ttl_for_entity name) ::
             s.store.filter (fun e => !(e.1 == s.makeKey (make_tool_key name args))) }) :=
      get_hit (by exact hc) (dictGet_cons_self _ _ _)
    simp only [dispatch_tool_cached, hsc, Bool.and_self, if_true, hgh]
    simp [markCached, success_response, Value.getKey, dictGet, dictSet]

/-- Witness for C3: a concrete miss-then-hit run of `get_customers` over an
initially empty connected store. -/
theorem cached_dispatch_second_call_hits_witness :
    should_cache "get_customers" = true ∧
    ∃ (s1 s2 : Sys),
      dispatch_tool_cached cwExec "get_customers" [] true sEmpty noFaults =
        some (success_response (.str "fresh") none, s1, 1) ∧
      dictGet s1.store (s1.makeKey (make_tool_key "get_customers" [])) =
        some (success_response (.str "fresh") none, get_ttl_for_entity "get_customers") ∧
      dispatch_tool_cached cwExec "get_customers" [] true s1 noFaults =
        some (.obj [("success", .bool true), ("data", .str "fresh"),
          ("metadata", .obj (dictSet ((none : Option Args).getD []) "cached" (.bool true)))],
          s2, 0) ∧
      dictGet (dictSet ((none : Option Args).getD []) "cached" (.bool true)) "cached" =
        some (.bool true) :=
  ⟨by decide,
   cached_dispatch_second_call_hits cwExec "get_customers" [] sEmpty (.str "fresh") none
     rfl (by decide) (by decide) rfl rfl⟩

theorem glob_prefix_match (pfx mid key : String)
    (hstar : (pfx ++ mid).data.contains '*' = false) :
    globMatchStr (pfx ++ (mid ++ "*")) (pfx ++ (mid ++ key)) = true := by
  have h1 : (pfx ++ (mid ++ "*")).data = (pfx ++ mid).data ++ ['*'] := by
    simp [String.data_append]
  have h2 : (pfx ++ (mid ++ key)).data = (pfx ++ mid).data ++ key.data := by
    simp [String.data_append]
  unfold globMatchStr globMatch
  rw [h1, h2, globMatchGo_star _ _ _ hstar (by simp; omega)]
  simp [List.prefix_append]

theorem list_contains_append (l1 l2 : List Char) (c : Char) :
    (l1 ++ l2).contains c = (l1.contains c || l2.contains c) := by
  induction l1 with
  | nil => simp
  | cons a l ih => simp [List.contains_cons, ih, Bool.or_assoc]

theorem contains_star_append {a b : String}
    (ha : a.data.contains '*' = false) (hb : b.data.contains '*' = false) :
    (a ++ b).data.contains '*' = false := by
  simp only [String.data_append, list_contains_append, Bool.or_eq_false_iff]
  exact ⟨ha, hb⟩

/-- C4 (amended): after a registered mutating operation with invalidation
target `t` completes successfully through the cached dispatcher, every store
entry under a fingerprint of `t` has been deleted, so a following dispatch
of `t` finds no cached entry; the follow-up dispatch of `t` performs a fresh
upstream call provided `t` itself is registered in the tool registry. -/
theorem mutation_invalidates_target_keys (execute : ExecOracle) (name t : String)
    (args : Args) (s : Sys) (d : Value) (md : Option Args)
    (hc : s.connected = true)
    (ht : t ∈ get_invalidation_targets name)
    (hreg : TOOL_REGISTRY_KEYS.contains name = true)
    (hex : execute name args = success_response d md)
    (hstar : s.pfx.data.contains '*' = false) :
    dispatch_tool_cached execute name args true s noFaults =
      some (success_response d md,
        invalidateTargets s (get_invalidation_targets name) (fun _ => false) 0, 1) ∧
    (∀ args2,
      dictGet (invalidateTargets s (get_invalidation_targets name) (fun _ => false) 0).store
        ((invalidateTargets s (get_invalidation_targets name) (fun _ => false) 0).makeKey
          (make_tool_key t args2)) = none) ∧
    (∀ args2, TOOL_REGISTRY_KEYS.contains t = true →
      (dispatch_tool_cached execute t args2 true
          (invalidateTargets s (get_invalidation_targets name) (fun _ => false) 0)
          noFaults).map (fun r => (r.1, r.2.2)) = some (execute t args2, 1)) := by
  have hscn : should_cache name = false := mem_targets_not_cached ht
  have hconn : (invalidateTargets s (get_invalidation_targets name) (fun _ => false) 0).connected
      = true := by rw [invalidateTargets_state.1, hc]
  have hpfx : (invalidateTargets s (get_invalidation_targets name) (fun _ => false) 0).pfx
      = s.pfx := invalidateTargets_state.2
  have habsent : ∀ args2,
      dictGet (invalidateTargets s (get_invalidation_targets name) (fun _ => false) 0).store
        ((invalidateTargets s (get_invalidation_targets name) (fun _ => false) 0).makeKey
          (make_tool_key t args2)) = none := by
    intro args2
    cases hdg : dictGet (invalidateTargets s (get_invalidation_targets name)
        (fun _ => false) 0).store
        ((invalidateTargets s (get_invalidation_targets name) (fun _ => false) 0).makeKey
          (make_tool_key t args2)) with
    | none => rfl
    | some vt =>
      exfalso
      have hmem := dictGet_mem hdg
      have hglob := invalidateTargets_clears hc (fun _ => rfl) ht hmem
      simp only [] at hglob
      have hstar2 : (s.pfx ++ ("tool:" ++ t ++ ":")).data.contains '*' = false := by
        apply contains_star_append hstar
        apply contains_star_append
        · apply contains_star_append
          · decide
          · exact mem_targets_star_free ht
        · decide
      have hmid : s.pfx ++ ("tool:" ++ t ++ ":*") =
          s.pfx ++ (("tool:" ++ t ++ ":") ++ "*") := by
        have h0 : ("tool:" ++ t ++ ":*") = ("tool:" ++ t ++ ":") ++ "*" := by
          have hcs : (":*" : String) = ":" ++ "*" := by decide
          rw [hcs, ← String.append_assoc]
        rw [h0]
      have e2 : (invalidateTargets s (get_invalidation_targets name)
          (fun _ => false) 0).makeKey (make_tool_key t args2) =
          s.pfx ++ (("tool:" ++ t ++ ":") ++ hash_args args2) := by
        unfold Sys.makeKey make_tool_key
        rw [hpfx, String.append_assoc]
      have htrue := glob_prefix_match s.pfx ("tool:" ++ t ++ ":") (hash_args args2) hstar2
      rw [← hmid, ← e2] at htrue
      rw [hglob] at htrue
      cases htrue
  refine ⟨?_, habsent, ?_⟩
  · simp only [dispatch_tool_cached, hscn, Bool.and_false, if_false]
    simp only [dispatch_tool, hreg, if_true, hex]
    simp [success_response, Value.getKey, dictGet, truthyOpt, Value.truthy, hscn, noFaults]
  · intro args2 hregt
    have hsct : should_cache t = true := mem_targets_cacheable ht
    have hgm2 : DragonflyCache.get
        (invalidateTargets s (get_invalidation_targets name) (fun _ => false) 0)
        (make_tool_key t args2) noFaults.getF =
        (none, { invalidateTargets s (get_invalidation_targets name) (fun _ => false) 0 with
          misses := (invalidateTargets s (get_invalidation_targets name)
            (fun _ => false) 0).misses + 1 }) :=
      get_miss hconn (by decide) (habsent args2)
    simp only [dispatch_tool_cached, hsct, Bool.and_self, if_true, hgm2]
    simp only [dispatch_tool, hregt, if_true]
    simp

/-- C4 counterexample: `get_customer_invoices` is a declared invalidation
target of `create_invoice`, and after a successful `create_invoice` dispatch
the stale entry stored under its fingerprint is indeed deleted — but the
next dispatch of `get_customer_invoices` is a cache miss that performs NO
upstream call: the name is absent from the tool registry, so the dispatcher
returns the `UNKNOWN_TOOL` failure with zero upstream invocations, against
the claim's "performs a fresh upstream call". -/
theorem invalidation_target_unregistered_no_upstream :
    "get_customer_invoices" ∈ get_invalidation_targets "create_invoice" ∧
    (dispatch_tool_cached cwExec "create_invoice" [] true sSeedStale noFaults).map
        (fun r => (truthyOpt (r.1.getKey "success"), r.2.1.store.length, r.2.2)) =
      some (true, 0, 1) ∧
    sSeedStale.store.length = 1 ∧
    (dispatch_tool_cached cwExec "get_customer_invoices" [] true
        { sSeedStale with store := [] } noFaults).map
        (fun r => (truthyOpt (r.1.getKey "success"), r.2.2)) =
      some (false, 0) := by
  refine ⟨by decide, ?_, rfl, by decide⟩
  decide

/-- Witness for C4 at the registered pair `create_customer` /
`get_customers` over an empty connected store. -/
theorem mutation_invalidates_target_keys_witness :
    "get_customers" ∈ get_invalidation_targets "create_customer" ∧
    TOOL_REGISTRY_KEYS.contains "create_customer" = true ∧
    (dispatch_tool_cached cwExec "create_customer" [] true sEmpty noFaults =
      some (success_response (.str "fresh") none,
        invalidateTargets sEmpty (get_invalidation_targets "create_customer")
          (fun _ => false) 0, 1) ∧
    (∀ args2,
      dictGet (invalidateTargets sEmpty (get_invalidation_targets "create_customer")
          (fun _ => false) 0).store
        ((invalidateTargets sEmpty (get_invalidation_targets "create_customer")
          (fun _ => false) 0).makeKey (make_tool_key "get_customers" args2)) = none) ∧
    (∀ args2, TOOL_REGISTRY_KEYS.contains "get_customers" = true →
      (dispatch_tool_cached cwExec "get_customers" args2 true
          (invalidateTargets sEmpty (get_invalidation_targets "create_customer")
            (fun _ => false) 0)
          noFaults).map (fun r => (r.1, r.2.2)) =
        some (cwExec "get_customers" args2, 1))) :=
  ⟨by decide, by decide,
   mutation_invalidates_target_keys cwExec "create_customer" "get_customers" [] sEmpty
     (.str "fresh") none rfl (by decide) (by decide) rfl (by decide)⟩
